import Mathlib

/-!
Shallow embedding of the `rasperature` edge telemetry pipeline
(`src/pi-app/cloud_publisher.py`, `src/pi-app/sensor_manager.py`,
`src/pi-app/sensors/base.py`) and proofs of the specification claims.

Python `dict`s with string keys are modelled as association lists
(`List (String × β)`); `float` values as `ℚ`; wall-clock time as an
explicit `ℚ` parameter; the Pub/Sub transport as a function
`Reading → Bool` (`true` = the publish call and its `future.result()`
succeed, `false` = the call raises).
-/

set_option autoImplicit false

/-- Lookup in an association list: Python `d.get(k)` / `d[k]`. -/
def getv {β : Type} : List (String × β) → String → Option β
  | [], _ => none
  | (k2, v) :: rest, k => if k2 = k then some v else getv rest k

/-- Key update in an association list: Python `d[k] = v`
(replaces the first binding of `k`, appends if absent). -/
def setk {β : Type} : List (String × β) → String → β → List (String × β)
  | [], k, v => [(k, v)]
  | (k2, v2) :: rest, k, v =>
      if k2 = k then (k, v) :: rest else (k2, v2) :: setk rest k v

/-- A sensor reading dictionary, as produced by
`BaseSensor.read_with_metadata` and consumed by `CloudPublisher`.
`timestamp` abstracts the ISO timestamp string; `rep_error_count` is the
`error_count` field present only in error readings. -/
structure Reading where
  sensor_id : String
  sensor_type : String
  timestamp : Nat
  readings : List (String × ℚ)
  status : String
  error : Option String
  rep_error_count : Option Nat
deriving DecidableEq

/-- The mutable state of `CloudPublisher` (`cloud_publisher.py`, lines 46-63).
`message_queue` is the deque, head = oldest (appends at the tail,
`popleft` from the head); `last_published_values` maps a `sensor_id` to
its last-accepted metric snapshot; `offline_buffer` is the in-memory
list mirrored to `offline_buffer.json`. -/
structure CloudPublisher where
  enabled : Bool
  batch_size : Nat
  max_batch_wait : ℚ
  message_queue : List Reading
  last_published_values : List (String × List (String × ℚ))
  publish_count : Nat
  error_count : Nat
  last_batch_time : ℚ
  offline_buffer : List Reading
deriving DecidableEq

/-- The downsample test of `CloudPublisher.should_publish` against a given
snapshot map (the body of lines 117-135 with `self.last_published_values`
made explicit). -/
def shouldPublishSnap (snaps : List (String × List (String × ℚ)))
    (reading : Reading) (thresholds : List (String × ℚ)) : Bool :=
  match getv snaps reading.sensor_id with
  | none => true
  | some last_reading =>
      reading.readings.any fun p =>
        match getv last_reading p.1 with
        | none => false
        | some last_value => decide ((getv thresholds p.1).getD 0 < |p.2 - last_value|)

/-- Embeds `CloudPublisher.should_publish` (lines 106-135). -/
def CloudPublisher.should_publish (s : CloudPublisher) (reading : Reading)
    (thresholds : List (String × ℚ)) : Bool :=
  shouldPublishSnap s.last_published_values reading thresholds

/-- A reading with metric map `m` and status `st` (other metadata fixed),
used for concrete instances. -/
def mkReading (sid st : String) (m : List (String × ℚ)) : Reading :=
  ⟨sid, "BMP280", 0, m, st, none, none⟩

/-- One step of the acceptance loop in `CloudPublisher.publish`
(lines 150-156).  The accumulator is
`(filtered_readings, last_published_values, evaluated)` where `evaluated`
records the readings on which `should_publish` was actually invoked
(the Python `and` short-circuits, so only readings whose status equals
`ok` reach it).
An accepted reading is appended to `filtered_readings` and the snapshot
of its sensor is replaced by a copy of its metric map. -/
def filterStep (thresholds : List (String × ℚ))
    (acc : List Reading × List (String × List (String × ℚ)) × List Reading)
    (reading : Reading) :
    List Reading × List (String × List (String × ℚ)) × List Reading :=
  if reading.status = "ok" then
    if shouldPublishSnap acc.2.1 reading thresholds then
      (acc.1 ++ [reading], setk acc.2.1 reading.sensor_id reading.readings,
       acc.2.2 ++ [reading])
    else
      (acc.1, acc.2.1, acc.2.2 ++ [reading])
  else acc

/-- The whole acceptance loop of `CloudPublisher.publish` (lines 148-156),
run from snapshot map `snaps` over the input `readings`. -/
def filterAccepted (thresholds : List (String × ℚ))
    (snaps : List (String × List (String × ℚ))) (readings : List Reading) :
    List Reading × List (String × List (String × ℚ)) × List Reading :=
  readings.foldl (filterStep thresholds) ([], snaps, [])

/-- Embeds `CloudPublisher._publish_batch` (lines 170-205).  Pops up to `batch_size`
messages from the queue head; on full transport success increments
`publish_count` by the batch length and resets `last_batch_time`; on any
failure increments `error_count` once and moves the whole prepared batch —
popped from the end of the batch list — into the offline buffer (followed by
`_save_offline_buffer`).  Returns the new state and the list of transport
publish calls issued, in order (the call raising on failure included). -/
def CloudPublisher.publish_batch (s : CloudPublisher) (now : ℚ)
    (transport : Reading → Bool) : CloudPublisher × List Reading :=
  if s.message_queue = [] then (s, [])
  else
    let messages := s.message_queue.take s.batch_size
    let rest := s.message_queue.drop s.batch_size
    if messages.all transport then
      ({ s with message_queue := rest,
                publish_count := s.publish_count + messages.length,
                last_batch_time := now }, messages)
    else
      ({ s with message_queue := rest,
                error_count := s.error_count + 1,
                offline_buffer := s.offline_buffer ++ messages.reverse },
       messages.takeWhile transport ++ (messages.dropWhile transport).take 1)

/-- Embeds `CloudPublisher.publish` (lines 137-168): filter the readings, enqueue the
accepted ones, and flush one batch when the queue has reached `batch_size` or
`max_batch_wait` has elapsed since `last_batch_time`.  Returns the new state,
the transport calls issued, and the number of `_publish_batch` invocations. -/
def CloudPublisher.publish (s : CloudPublisher) (now : ℚ)
    (transport : Reading → Bool) (readings : List Reading)
    (thresholds : List (String × ℚ)) : CloudPublisher × List Reading × Nat :=
  if s.enabled = false then (s, [], 0)
  else
    let fa := filterAccepted thresholds s.last_published_values readings
    if fa.1 = [] then (s, [], 0)
    else
      let s1 := { s with last_published_values := fa.2.1,
                         message_queue := s.message_queue ++ fa.1 }
      if s.batch_size ≤ s1.message_queue.length ∨ s.max_batch_wait ≤ now - s.last_batch_time then
        let r := CloudPublisher.publish_batch s1 now transport
        (r.1, r.2, 1)
      else (s1, [], 0)

/-- Embeds `CloudPublisher.flush` (lines 226-229): one `_publish_batch` call when the
queue is non-empty. -/
def CloudPublisher.flush (s : CloudPublisher) (now : ℚ)
    (transport : Reading → Bool) : CloudPublisher × List Reading :=
  if s.message_queue = [] then (s, [])
  else CloudPublisher.publish_batch s now transport

/-- The configuration dictionary keys `CloudPublisher.__init__` reads,
`none` when a key is absent (Python `config.get(key, default)`). -/
structure PublisherConfig where
  enabled : Option Bool
  batch_size : Option Nat
  max_batch_wait : Option ℚ

/-- Embeds `CloudPublisher.__init__` (lines 33-66).  Here `fileContents` is the content of
`offline_buffer.json` at construction time (`none` when the file does not
exist).  The constructor sets `offline_buffer = []` and never invokes
`_load_offline_buffer` — that method has no call site anywhere in the
repository — so `fileContents` is ignored. -/
def CloudPublisher.init (cfg : PublisherConfig) (now : ℚ)
    (fileContents : Option (List Reading)) : CloudPublisher :=
  let _ := fileContents
  { enabled := cfg.enabled.getD false
    batch_size := cfg.batch_size.getD 10
    max_batch_wait := cfg.max_batch_wait.getD 5
    message_queue := []
    last_published_values := []
    publish_count := 0
    error_count := 0
    last_batch_time := now
    offline_buffer := [] }

/-- Embeds `CloudPublisher._save_offline_buffer` (lines 207-214): the value written
to `offline_buffer.json`, i.e. the full buffer list (`json.dump` of the whole
list, not an incremental append). -/
def CloudPublisher.save_offline_buffer (s : CloudPublisher) : List Reading :=
  s.offline_buffer

/-- Embeds `CloudPublisher._load_offline_buffer` (lines 216-224): replace the
in-memory buffer with the file contents when the file exists.  Present in the
source but never called from anywhere in the repository. -/
def CloudPublisher.load_offline_buffer (s : CloudPublisher)
    (fileContents : Option (List Reading)) : CloudPublisher :=
  match fileContents with
  | some l => { s with offline_buffer := l }
  | none => s

/-- The `SensorManager` state relevant to configuration updates
(`sensor_manager.py`): the configuration dictionary (values of type `V`) and
the `is_running` flag. -/
structure SensorManager (V : Type) where
  config : List (String × V)
  is_running : Bool

/-- Embeds `SensorManager.stop_collection` (lines 279-287): clear `is_running` (and
join the worker).  Returns the state and the lifecycle events performed. -/
def SensorManager.stop_collection {V : Type} (m : SensorManager V) :
    SensorManager V × List String :=
  if m.is_running = false then (m, [])
  else ({ m with is_running := false }, ["stop"])

/-- Embeds `SensorManager.start_collection` (lines 268-277): set `is_running` and
spawn the worker, unless already running. -/
def SensorManager.start_collection {V : Type} (m : SensorManager V) :
    SensorManager V × List String :=
  if m.is_running then (m, [])
  else ({ m with is_running := true }, ["start"])

/-- Embeds `SensorManager.update_config` (lines 232-257): merge `updates` into the
configuration (`dict.update`), save it, and — when `update_frequency` is
among the updated keys while collection is running — stop and restart the
collection loop.  Returns the new state and the stop/start events
performed. -/
def SensorManager.update_config {V : Type} (m : SensorManager V)
    (updates : List (String × V)) : SensorManager V × List String :=
  let m1 : SensorManager V :=
    { m with config := updates.foldl (fun c p => setk c p.1 p.2) m.config }
  if (getv updates "update_frequency").isSome && m1.is_running then
    let r1 := m1.stop_collection
    let r2 := r1.1.start_collection
    (r2.1, r1.2 ++ r2.2)
  else (m1, [])

/-- The `BaseSensor` state touched by `read_with_metadata`
(`sensors/base.py`, lines 19-32). -/
structure BaseSensor where
  sensor_id : String
  sensor_type : String
  is_active : Bool
  error_count : Nat
  last_reading : Option (List (String × ℚ))
  last_reading_time : Option Nat
deriving DecidableEq

/-- Embeds `BaseSensor.read_with_metadata` (lines 80-110).  Here `readResult` is the
outcome of `self.read()`: `Except.ok` with the metric map, or `Except.error`
with the exception message.  On success the state records the reading and
resets `error_count` to 0; on failure `error_count` is incremented and an
error reading carrying the message and the new count is returned. -/
def BaseSensor.read_with_metadata (s : BaseSensor) (now : Nat)
    (readResult : Except String (List (String × ℚ))) : BaseSensor × Reading :=
  match readResult with
  | Except.ok r =>
      ({ s with last_reading := some r, last_reading_time := some now,
                error_count := 0 },
       ⟨s.sensor_id, s.sensor_type, now, r, "ok", none, none⟩)
  | Except.error e =>
      ({ s with error_count := s.error_count + 1 },
       ⟨s.sensor_id, s.sensor_type, now, [], "error", some e,
        some (s.error_count + 1)⟩)

/-- Embeds `SensorManager.read_all_sensors` (sensor_manager.py, lines 218-230):
visit every sensor in turn, invoking `read_with_metadata` on the active ones;
each sensor is paired with the outcome its `read()` produces this tick.
Returns the updated sensors and the readings collected. -/
def read_all_sensors
    (sensors : List (BaseSensor × Except String (List (String × ℚ))))
    (now : Nat) : List BaseSensor × List Reading :=
  sensors.foldl
    (fun acc p =>
      if p.1.is_active then
        (acc.1 ++ [(BaseSensor.read_with_metadata p.1 now p.2).1],
         acc.2 ++ [(BaseSensor.read_with_metadata p.1 now p.2).2])
      else (acc.1 ++ [p.1], acc.2))
    ([], [])

/-- Iterated ticks of one sensor: `read_with_metadata` applied to each
successive `read()` outcome. -/
def runReads (s : BaseSensor) (now : Nat)
    (results : List (Except String (List (String × ℚ)))) : BaseSensor :=
  results.foldl (fun st r => (BaseSensor.read_with_metadata st now r).1) s

theorem shouldPublishSnap_iff (snaps : List (String × List (String × ℚ)))
    (r : Reading) (th : List (String × ℚ)) :
    shouldPublishSnap snaps r th = true ↔
      getv snaps r.sensor_id = none ∨
      ∃ last, getv snaps r.sensor_id = some last ∧
        ∃ p ∈ r.readings, ∃ lastv, getv last p.1 = some lastv ∧
          (getv th p.1).getD 0 < |p.2 - lastv| := by
  unfold shouldPublishSnap
  cases h : getv snaps r.sensor_id with
  | none => simp
  | some last =>
      simp only [h, Option.some.injEq, List.any_eq_true]
      constructor
      · rintro ⟨p, hp, hpred⟩
        refine Or.inr ⟨last, rfl, p, hp, ?_⟩
        cases hlastm : getv last p.1 with
        | none => rw [hlastm] at hpred; exact absurd hpred (by simp)
        | some lastv =>
            rw [hlastm] at hpred
            exact ⟨lastv, rfl, by simpa using hpred⟩
      · rintro (hnone | ⟨last2, hlast2, p, hp, lastv, hlv, hgt⟩)
        · exact absurd hnone (by simp)
        · cases hlast2
          exact ⟨p, hp, by rw [hlv]; simpa using hgt⟩

/-- C1: the downsample filter of the publisher passes a reading with no
last-accepted snapshot for its sensor (cold start); otherwise it passes
iff some metric present in both the new map and the snapshot differs by
strictly more than its threshold (0 when unconfigured).  With snapshot
`{temperature: 20.0}` and threshold `{temperature: 0.5}`, new values
20.4 and 20.5 are suppressed and 20.6 passes. -/
theorem should_publish_characterization (s : CloudPublisher) (r : Reading)
    (th : List (String × ℚ)) :
    (CloudPublisher.should_publish s r th = true ↔
      getv s.last_published_values r.sensor_id = none ∨
      ∃ last, getv s.last_published_values r.sensor_id = some last ∧
        ∃ p ∈ r.readings, ∃ lastv, getv last p.1 = some lastv ∧
          (getv th p.1).getD 0 < |p.2 - lastv|)
    ∧ shouldPublishSnap [("s1", [("temperature", 20)])]
        (mkReading "s1" "ok" [("temperature", 204/10)]) [("temperature", 1/2)] = false
    ∧ shouldPublishSnap [("s1", [("temperature", 20)])]
        (mkReading "s1" "ok" [("temperature", 205/10)]) [("temperature", 1/2)] = false
    ∧ shouldPublishSnap [("s1", [("temperature", 20)])]
        (mkReading "s1" "ok" [("temperature", 206/10)]) [("temperature", 1/2)] = true
    ∧ shouldPublishSnap [] (mkReading "s1" "ok" [("temperature", 206/10)]) [] = true := by
  refine ⟨shouldPublishSnap_iff s.last_published_values r th, ?_, ?_, ?_, ?_⟩
  all_goals
    simp only [shouldPublishSnap, mkReading, getv, if_pos, List.any_cons, List.any_nil]
    try norm_num [abs_le, lt_abs]

theorem publish_batch_fail_eq (s : CloudPublisher) (now : ℚ)
    (transport : Reading → Bool) (hq : s.message_queue ≠ [])
    (hfail : (s.message_queue.take s.batch_size).all transport = false) :
    (CloudPublisher.publish_batch s now transport).1 =
      { s with message_queue := s.message_queue.drop s.batch_size,
               error_count := s.error_count + 1,
               offline_buffer :=
                 s.offline_buffer ++ (s.message_queue.take s.batch_size).reverse } := by
  simp [CloudPublisher.publish_batch, hq, hfail]

theorem publish_batch_succ_eq (s : CloudPublisher) (now : ℚ)
    (transport : Reading → Bool) (hq : s.message_queue ≠ [])
    (hok : (s.message_queue.take s.batch_size).all transport = true) :
    CloudPublisher.publish_batch s now transport =
      ({ s with message_queue := s.message_queue.drop s.batch_size,
                publish_count :=
                  s.publish_count + (s.message_queue.take s.batch_size).length,
                last_batch_time := now }, s.message_queue.take s.batch_size) := by
  simp [CloudPublisher.publish_batch, hq, hok]

/-- C2: when every transport call of a flush attempt fails, every message of
the prepared batch lands in the offline buffer, `publish_count` is unchanged,
`error_count` increases by exactly 1 (not by the number of messages), and the
batch is not re-queued — the queue afterwards holds only the messages beyond
the attempted batch, so there is no automatic retry beyond this attempt. -/
theorem all_fail_flush_attempt (s : CloudPublisher) (now : ℚ)
    (transport : Reading → Bool) (hq : s.message_queue ≠ [])
    (hbs : 0 < s.batch_size)
    (hfail : ∀ m ∈ s.message_queue.take s.batch_size, transport m = false) :
    (∀ m ∈ s.message_queue.take s.batch_size,
        m ∈ (CloudPublisher.publish_batch s now transport).1.offline_buffer) ∧
    (CloudPublisher.publish_batch s now transport).1.publish_count =
      s.publish_count ∧
    (CloudPublisher.publish_batch s now transport).1.error_count =
      s.error_count + 1 ∧
    (CloudPublisher.publish_batch s now transport).1.message_queue =
      s.message_queue.drop s.batch_size := by
  have hne : s.message_queue.take s.batch_size ≠ [] := by
    cases hmq : s.message_queue with
    | nil => exact absurd hmq hq
    | cons a l =>
        cases hb : s.batch_size with
        | zero => omega
        | succ n => simp [hmq, hb]
  have hall : (s.message_queue.take s.batch_size).all transport = false := by
    cases hmt : (s.message_queue.take s.batch_size).all transport
    · rfl
    · rw [List.all_eq_true] at hmt
      obtain ⟨x, hx⟩ := List.exists_mem_of_ne_nil _ hne
      have h1 := hmt x hx
      have h2 := hfail x hx
      rw [h1] at h2
      exact absurd h2 (by simp)
  rw [publish_batch_fail_eq s now transport hq hall]
  refine ⟨?_, rfl, rfl, rfl⟩
  intro m hm
  simp only [List.mem_append, List.mem_reverse]
  exact Or.inr hm

/-- Witness for C2 at a concrete batch of two messages, all transport calls
failing. -/
theorem all_fail_flush_attempt_witness :
    (∀ m ∈ (CloudPublisher.mk true 2 5
        [mkReading "a" "ok" [], mkReading "b" "ok" []] [] 7 0 0 []).message_queue.take 2,
      m ∈ (CloudPublisher.publish_batch
        (CloudPublisher.mk true 2 5
          [mkReading "a" "ok" [], mkReading "b" "ok" []] [] 7 0 0 [])
        0 (fun _ => false)).1.offline_buffer) ∧
    (CloudPublisher.publish_batch
        (CloudPublisher.mk true 2 5
          [mkReading "a" "ok" [], mkReading "b" "ok" []] [] 7 0 0 [])
        0 (fun _ => false)).1.publish_count = 7 ∧
    (CloudPublisher.publish_batch
        (CloudPublisher.mk true 2 5
          [mkReading "a" "ok" [], mkReading "b" "ok" []] [] 7 0 0 [])
        0 (fun _ => false)).1.error_count = 0 + 1 ∧
    (CloudPublisher.publish_batch
        (CloudPublisher.mk true 2 5
          [mkReading "a" "ok" [], mkReading "b" "ok" []] [] 7 0 0 [])
        0 (fun _ => false)).1.message_queue =
      (CloudPublisher.mk true 2 5
        [mkReading "a" "ok" [], mkReading "b" "ok" []] [] 7 0 0 []).message_queue.drop 2 :=
  all_fail_flush_attempt
    (CloudPublisher.mk true 2 5
      [mkReading "a" "ok" [], mkReading "b" "ok" []] [] 7 0 0 [])
    0 (fun _ => false) (by simp) (by decide) (by intro m hm; rfl)

/-- C10: a failed flush attempt appends the prepared batch to the offline
buffer by popping from the end of the batch list, so the batch enters the
buffer in the reverse of its FIFO queue order. -/
theorem failed_batch_enters_buffer_reversed (s : CloudPublisher) (now : ℚ)
    (transport : Reading → Bool) (hq : s.message_queue ≠ [])
    (hfail : (s.message_queue.take s.batch_size).all transport = false) :
    (CloudPublisher.publish_batch s now transport).1.offline_buffer =
      s.offline_buffer ++ (s.message_queue.take s.batch_size).reverse := by
  rw [publish_batch_fail_eq s now transport hq hfail]

/-- Witness for C10: the failed two-message batch `[a, b]` enters the empty
offline buffer as `[b, a]`. -/
theorem failed_batch_enters_buffer_reversed_witness :
    (CloudPublisher.publish_batch
        (CloudPublisher.mk true 2 5
          [mkReading "a" "ok" [], mkReading "b" "ok" []] [] 7 0 0 [])
        0 (fun _ => false)).1.offline_buffer =
      [] ++ ((CloudPublisher.mk true 2 5
          [mkReading "a" "ok" [], mkReading "b" "ok" []] [] 7 0 0 []).message_queue.take 2).reverse :=
  failed_batch_enters_buffer_reversed
    (CloudPublisher.mk true 2 5
      [mkReading "a" "ok" [], mkReading "b" "ok" []] [] 7 0 0 [])
    0 (fun _ => false) (by simp) (by rfl)

/-- C6 (code bug): `flush()` performs a single `_publish_batch`, which pops at
most `batch_size` messages.  With `batch_size = 2`, three queued messages and
a transport that succeeds on every call, one message remains in the queue
after `flush()` — the queue is not drained, contrary to the docstring
of flush itself ("Flush any remaining messages in queue") and the shutdown
contract. -/
theorem flush_leaves_queue_residual :
    (CloudPublisher.flush
        (CloudPublisher.mk true 2 5
          [mkReading "a" "ok" [], mkReading "b" "ok" [], mkReading "c" "ok" []]
          [] 0 0 0 [])
        1 (fun _ => true)).1.message_queue = [mkReading "c" "ok" []] ∧
    (CloudPublisher.flush
        (CloudPublisher.mk true 2 5
          [mkReading "a" "ok" [], mkReading "b" "ok" [], mkReading "c" "ok" []]
          [] 0 0 0 [])
        1 (fun _ => true)).1.message_queue ≠ [] ∧
    (CloudPublisher.flush
        (CloudPublisher.mk true 2 5
          [mkReading "a" "ok" [], mkReading "b" "ok" [], mkReading "c" "ok" []]
          [] 0 0 0 [])
        1 (fun _ => true)).1.publish_count = 2 ∧
    (CloudPublisher.flush
        (CloudPublisher.mk true 2 5
          [mkReading "a" "ok" [], mkReading "b" "ok" [], mkReading "c" "ok" []]
          [] 0 0 0 [])
        1 (fun _ => true)).1.offline_buffer = [] := by
  refine ⟨?_, ?_, ?_, ?_⟩ <;>
    simp [CloudPublisher.flush, CloudPublisher.publish_batch, mkReading]

/-- C5 (code bug): `_save_offline_buffer` does serialize the full buffer list
on every write and `_load_offline_buffer` would install the file contents,
but the constructor initialises `offline_buffer` to `[]` and never invokes
the loader (no call site exists in the repository), so a publisher created
with an existing non-empty `offline_buffer.json` starts with an empty
in-memory offline buffer. -/
theorem init_ignores_persisted_offline_buffer :
    (CloudPublisher.init ⟨some true, some 10, some 5⟩ 0
        (some [mkReading "s1" "ok" [("temperature", 20)]])).offline_buffer = [] ∧
    (∀ s : CloudPublisher, CloudPublisher.save_offline_buffer s = s.offline_buffer) ∧
    (∀ (s : CloudPublisher) (fc : List Reading),
        (CloudPublisher.load_offline_buffer s (some fc)).offline_buffer = fc) :=
  ⟨rfl, fun _ => rfl, fun _ _ => rfl⟩

/-- C7 counterexample: with the collection loop running, an `update_config`
call whose updates contain `update_frequency` performs an automatic stop
followed by an automatic start of the loop — contrary to the claim that the
caller must do this explicitly. -/
theorem update_config_restart_cx :
    (SensorManager.update_config (V := Nat)
        (SensorManager.mk [("update_frequency", 60)] true)
        [("update_frequency", 30)]).2 = ["stop", "start"] := by
  rfl

/-- C7 (amended): changing `update_frequency` while the collection loop runs
does not require an explicit stop-then-start by the caller: `update_config`
itself automatically performs exactly one stop followed by one start whenever
`update_frequency` is among the updated keys and collection is running, after
merging the updates into the configuration. -/
theorem update_config_auto_restart {V : Type} (m : SensorManager V)
    (updates : List (String × V))
    (hk : (getv updates "update_frequency").isSome = true)
    (hr : m.is_running = true) :
    (m.update_config updates).2 = ["stop", "start"] ∧
    (m.update_config updates).1.is_running = true ∧
    (m.update_config updates).1.config =
      updates.foldl (fun c p => setk c p.1 p.2) m.config := by
  unfold SensorManager.update_config
  simp [SensorManager.stop_collection, SensorManager.start_collection, hk, hr]

/-- Witness for C7 (amended) at a concrete running manager and a concrete
`update_frequency` update. -/
theorem update_config_auto_restart_witness :
    (SensorManager.update_config (V := Nat)
        (SensorManager.mk [("device_id", 1)] true) [("update_frequency", 45)]).2 =
      ["stop", "start"] ∧
    (SensorManager.update_config (V := Nat)
        (SensorManager.mk [("device_id", 1)] true) [("update_frequency", 45)]).1.is_running =
      true ∧
    (SensorManager.update_config (V := Nat)
        (SensorManager.mk [("device_id", 1)] true) [("update_frequency", 45)]).1.config =
      [("update_frequency", 45)].foldl (fun c p => setk c p.1 p.2) [("device_id", 1)] :=
  update_config_auto_restart
    (SensorManager.mk [("device_id", 1)] true) [("update_frequency", 45)]
    (by rfl) rfl

/-- C3: starting from an empty queue, a `publish` call whose accepted
readings number exactly `batch_size` (with publishing enabled and a
transport succeeding on every call) triggers exactly one flush, issues
exactly `batch_size` transport calls in FIFO order (the accepted list,
oldest first), increments `publish_count` by `batch_size`, resets
`last_batch_time`, and empties the queue. -/
theorem batch_size_enqueue_single_flush (s : CloudPublisher) (now : ℚ)
    (transport : Reading → Bool) (readings : List Reading)
    (thresholds : List (String × ℚ))
    (hen : s.enabled = true) (hq : s.message_queue = [])
    (hbs : 0 < s.batch_size)
    (hlen : (filterAccepted thresholds s.last_published_values readings).1.length
      = s.batch_size)
    (htr : ∀ m, transport m = true) :
    (CloudPublisher.publish s now transport readings thresholds).2.2 = 1 ∧
    (CloudPublisher.publish s now transport readings thresholds).2.1 =
      (filterAccepted thresholds s.last_published_values readings).1 ∧
    (CloudPublisher.publish s now transport readings thresholds).1.publish_count =
      s.publish_count + s.batch_size ∧
    (CloudPublisher.publish s now transport readings thresholds).1.last_batch_time =
      now ∧
    (CloudPublisher.publish s now transport readings thresholds).1.message_queue =
      [] := by
  have hne : (filterAccepted thresholds s.last_published_values readings).1 ≠ [] := by
    intro h
    rw [h] at hlen
    simp at hlen
    omega
  have htake : (filterAccepted thresholds s.last_published_values readings).1.take
      s.batch_size = (filterAccepted thresholds s.last_published_values readings).1 :=
    List.take_of_length_le (le_of_eq hlen)
  have hdrop : (filterAccepted thresholds s.last_published_values readings).1.drop
      s.batch_size = [] :=
    List.drop_eq_nil_of_le (le_of_eq hlen)
  have hall : (filterAccepted thresholds s.last_published_values readings).1.all
      transport = true :=
    List.all_eq_true.mpr (fun x _ => htr x)
  refine ⟨?_, ?_, ?_, ?_, ?_⟩ <;>
    simp [CloudPublisher.publish, CloudPublisher.publish_batch, hen, hq, hne,
      htake, hdrop, hall, hlen]

/-- Witness for C3: two fresh ok readings against `batch_size = 2` and an
empty queue give one flush of both, in order. -/
theorem batch_size_enqueue_single_flush_witness :
    (CloudPublisher.publish (CloudPublisher.mk true 2 5 [] [] 3 0 0 []) 1
        (fun _ => true) [mkReading "a" "ok" [], mkReading "b" "ok" []] []).2.2 = 1 ∧
    (CloudPublisher.publish (CloudPublisher.mk true 2 5 [] [] 3 0 0 []) 1
        (fun _ => true) [mkReading "a" "ok" [], mkReading "b" "ok" []] []).2.1 =
      (filterAccepted [] (CloudPublisher.mk true 2 5 [] [] 3 0 0 []).last_published_values
        [mkReading "a" "ok" [], mkReading "b" "ok" []]).1 ∧
    (CloudPublisher.publish (CloudPublisher.mk true 2 5 [] [] 3 0 0 []) 1
        (fun _ => true) [mkReading "a" "ok" [], mkReading "b" "ok" []] []).1.publish_count =
      3 + 2 ∧
    (CloudPublisher.publish (CloudPublisher.mk true 2 5 [] [] 3 0 0 []) 1
        (fun _ => true) [mkReading "a" "ok" [], mkReading "b" "ok" []] []).1.last_batch_time =
      1 ∧
    (CloudPublisher.publish (CloudPublisher.mk true 2 5 [] [] 3 0 0 []) 1
        (fun _ => true) [mkReading "a" "ok" [], mkReading "b" "ok" []] []).1.message_queue =
      [] :=
  batch_size_enqueue_single_flush (CloudPublisher.mk true 2 5 [] [] 3 0 0 []) 1
    (fun _ => true) [mkReading "a" "ok" [], mkReading "b" "ok" []] []
    rfl rfl (by decide) (by rfl) (fun m => rfl)

theorem filterFold_not_mem (thresholds : List (String × ℚ)) (r : Reading)
    (hr : r.status = "error") (readings : List Reading) :
    ∀ acc, r ∉ acc.1 → r ∉ acc.2.2 →
      r ∉ (readings.foldl (filterStep thresholds) acc).1 ∧
      r ∉ (readings.foldl (filterStep thresholds) acc).2.2 := by
  induction readings with
  | nil => exact fun acc h1 h2 => ⟨h1, h2⟩
  | cons a l ih =>
      intro acc h1 h2
      simp only [List.foldl_cons]
      apply ih
      · intro hx
        unfold filterStep at hx
        by_cases ha : a.status = "ok"
        · rw [if_pos ha] at hx
          by_cases hsp : shouldPublishSnap acc.2.1 a thresholds = true
          · rw [if_pos hsp] at hx
            simp only [List.mem_append, List.mem_singleton] at hx
            rcases hx with hx | hx
            · exact h1 hx
            · rw [hx, ha] at hr; exact absurd hr (by decide)
          · rw [if_neg hsp] at hx
            exact h1 hx
        · rw [if_neg ha] at hx
          exact h1 hx
      · intro hx
        unfold filterStep at hx
        by_cases ha : a.status = "ok"
        · rw [if_pos ha] at hx
          by_cases hsp : shouldPublishSnap acc.2.1 a thresholds = true
          · rw [if_pos hsp] at hx
            simp only [List.mem_append, List.mem_singleton] at hx
            rcases hx with hx | hx
            · exact h2 hx
            · rw [hx, ha] at hr; exact absurd hr (by decide)
          · rw [if_neg hsp] at hx
            simp only [List.mem_append, List.mem_singleton] at hx
            rcases hx with hx | hx
            · exact h2 hx
            · rw [hx, ha] at hr; exact absurd hr (by decide)
        · rw [if_neg ha] at hx
          exact h2 hx

theorem publish_batch_calls_mem (s : CloudPublisher) (now : ℚ)
    (transport : Reading → Bool) :
    ∀ m ∈ (CloudPublisher.publish_batch s now transport).2,
      m ∈ s.message_queue := by
  intro m hm
  by_cases hq : s.message_queue = []
  · simp [CloudPublisher.publish_batch, hq] at hm
  · by_cases hall : (s.message_queue.take s.batch_size).all transport = true
    · simp only [CloudPublisher.publish_batch, if_neg hq, hall, if_true] at hm
      exact List.take_subset _ _ hm
    · simp [CloudPublisher.publish_batch, hq, hall] at hm
      rcases hm with hm | hm
      · have hmem : m ∈ s.message_queue.take s.batch_size := by
          rw [← List.takeWhile_append_dropWhile (p := transport)
            (l := s.message_queue.take s.batch_size)]
          exact List.mem_append_left _ hm
        exact List.take_subset _ _ hmem
      · have hm2 : m ∈ (s.message_queue.take s.batch_size).dropWhile transport :=
          List.take_subset _ _ hm
        have hmem : m ∈ s.message_queue.take s.batch_size := by
          rw [← List.takeWhile_append_dropWhile (p := transport)
            (l := s.message_queue.take s.batch_size)]
          exact List.mem_append_right _ hm2
        exact List.take_subset _ _ hmem

theorem publish_batch_queue_subset (s : CloudPublisher) (now : ℚ)
    (transport : Reading → Bool) :
    ∀ m ∈ (CloudPublisher.publish_batch s now transport).1.message_queue,
      m ∈ s.message_queue := by
  intro m hm
  by_cases hq : s.message_queue = []
  · simp [CloudPublisher.publish_batch, hq] at hm
  · by_cases hall : (s.message_queue.take s.batch_size).all transport = true
    · simp [CloudPublisher.publish_batch, hq, hall] at hm
      exact List.drop_subset _ _ hm
    · simp [CloudPublisher.publish_batch, hq, hall] at hm
      exact List.drop_subset _ _ hm

/-- C4: a reading with status=error is never evaluated by the downsample
filter (the per-reading step leaves accepted list, snapshots and the set of
filter-evaluated readings untouched), is never accepted, and — provided it is
not already sitting in the queue — is never enqueued and never sent by
`publish`; in particular the last-accepted snapshot of its sensor is
unchanged by processing it. -/
theorem error_reading_never_processed (thresholds : List (String × ℚ))
    (r : Reading) (hr : r.status = "error") :
    (∀ acc, filterStep thresholds acc r = acc) ∧
    (∀ snaps readings, r ∉ (filterAccepted thresholds snaps readings).2.2) ∧
    (∀ snaps readings, r ∉ (filterAccepted thresholds snaps readings).1) ∧
    (∀ (s : CloudPublisher) (now : ℚ) (transport : Reading → Bool)
        (readings : List Reading), r ∉ s.message_queue →
      r ∉ (CloudPublisher.publish s now transport readings thresholds).2.1 ∧
      r ∉ (CloudPublisher.publish s now transport readings thresholds).1.message_queue) := by
  have hstep : ∀ acc, filterStep thresholds acc r = acc := by
    intro acc
    simp [filterStep, hr]
  have hev : ∀ snaps readings, r ∉ (filterAccepted thresholds snaps readings).2.2 :=
    fun snaps readings =>
      (filterFold_not_mem thresholds r hr readings ([], snaps, [])
        (by simp) (by simp)).2
  have hacc : ∀ snaps readings, r ∉ (filterAccepted thresholds snaps readings).1 :=
    fun snaps readings =>
      (filterFold_not_mem thresholds r hr readings ([], snaps, [])
        (by simp) (by simp)).1
  refine ⟨hstep, hev, hacc, ?_⟩
  intro s now transport readings hqr
  by_cases hen : s.enabled = false
  · exact ⟨by simp [CloudPublisher.publish, hen],
      by simpa [CloudPublisher.publish, hen] using hqr⟩
  · by_cases hfa : (filterAccepted thresholds s.last_published_values readings).1 = []
    · exact ⟨by simp [CloudPublisher.publish, hen, hfa],
        by simpa [CloudPublisher.publish, hen, hfa] using hqr⟩
    · have hq1 : r ∉ s.message_queue ++
          (filterAccepted thresholds s.last_published_values readings).1 := by
        simp only [List.mem_append]
        rintro (h | h)
        · exact hqr h
        · exact hacc _ _ h
      constructor
      · intro hmem
        rw [CloudPublisher.publish] at hmem
        rw [if_neg (by simp [hen])] at hmem
        rw [if_neg hfa] at hmem
        simp only [] at hmem
        split at hmem
        · exact hq1 (publish_batch_calls_mem _ now transport r hmem)
        · simp at hmem
      · intro hmem
        rw [CloudPublisher.publish] at hmem
        rw [if_neg (by simp [hen])] at hmem
        rw [if_neg hfa] at hmem
        simp only [] at hmem
        split at hmem
        · exact hq1 (publish_batch_queue_subset _ now transport r hmem)
        · exact hq1 hmem

/-- Witness for C4 at a concrete error reading: the filtering step is the
identity on it and it is not accepted from a concrete input list. -/
theorem error_reading_never_processed_witness :
    filterStep [] ([], [], []) (mkReading "a" "error" []) = ([], [], []) ∧
    mkReading "a" "error" [] ∉
      (filterAccepted [] []
        [mkReading "a" "error" [], mkReading "b" "ok" []]).1 :=
  ⟨(error_reading_never_processed [] (mkReading "a" "error" []) rfl).1 ([], [], []),
   (error_reading_never_processed [] (mkReading "a" "error" []) rfl).2.2.1 []
     [mkReading "a" "error" [], mkReading "b" "ok" []]⟩

theorem read_all_sensors_length (now : Nat)
    (sensors : List (BaseSensor × Except String (List (String × ℚ)))) :
    (read_all_sensors sensors now).2.length =
      (sensors.filter fun p => p.1.is_active).length := by
  have key : ∀ (l : List (BaseSensor × Except String (List (String × ℚ))))
      (acc : List BaseSensor × List Reading),
      (l.foldl (fun acc p =>
        if p.1.is_active then
          (acc.1 ++ [(BaseSensor.read_with_metadata p.1 now p.2).1],
           acc.2 ++ [(BaseSensor.read_with_metadata p.1 now p.2).2])
        else (acc.1 ++ [p.1], acc.2)) acc).2.length
      = acc.2.length + (l.filter fun p => p.1.is_active).length := by
    intro l
    induction l with
    | nil => intro acc; simp
    | cons a t ih =>
        intro acc
        by_cases ha : a.1.is_active
        · simp only [List.foldl_cons, ha, if_pos]
          rw [ih]
          simp [ha]
          omega
        · simp only [List.foldl_cons, ha]
          rw [if_neg (by simp [ha]), ih]
          simp [ha]
  have h0 := key sensors ([], [])
  simpa [read_all_sensors] using h0

/-- C8: a failing sensor read is caught and converted into a status=error
reading that records the error detail and the incremented per-sensor
error_count, and collection continues: whatever the read outcomes, every
active sensor of the tick produces a reading (one reading per active sensor,
none lost after a failure). -/
theorem sensor_read_failure_contained (s : BaseSensor) (now : Nat) (e : String) :
    (BaseSensor.read_with_metadata s now (Except.error e)).2.status = "error" ∧
    (BaseSensor.read_with_metadata s now (Except.error e)).2.error = some e ∧
    (BaseSensor.read_with_metadata s now (Except.error e)).1.error_count =
      s.error_count + 1 ∧
    (BaseSensor.read_with_metadata s now (Except.error e)).2.rep_error_count =
      some (s.error_count + 1) ∧
    (∀ sensors : List (BaseSensor × Except String (List (String × ℚ))),
      (read_all_sensors sensors now).2.length =
        (sensors.filter fun p => p.1.is_active).length) :=
  ⟨rfl, rfl, rfl, rfl, fun sensors => read_all_sensors_length now sensors⟩

theorem runReads_all_errors (now : Nat)
    (errs : List (Except String (List (String × ℚ)))) :
    ∀ s : BaseSensor, (∀ x ∈ errs, ∃ e, x = Except.error e) →
      (runReads s now errs).error_count = s.error_count + errs.length := by
  induction errs with
  | nil => intro s h; simp [runReads]
  | cons a t ih =>
      intro s h
      obtain ⟨e, he⟩ := h a (by simp)
      subst he
      have hstep : runReads s now (Except.error e :: t) =
          runReads (BaseSensor.read_with_metadata s now (Except.error e)).1 now t := rfl
      rw [hstep, ih _ (fun x hx => h x (by simp [hx]))]
      simp [BaseSensor.read_with_metadata, List.length_cons]
      omega

/-- C9: a successful read resets the per-sensor error_count to 0 (it is not
merely left unchanged), so after a success followed by a run of consecutive
failed reads the count equals the number of those failures, independent of
any earlier history accumulated in the state. -/
theorem error_count_counts_consecutive_failures (s : BaseSensor) (now : Nat)
    (r : List (String × ℚ)) (errs : List (Except String (List (String × ℚ))))
    (herrs : ∀ x ∈ errs, ∃ e, x = Except.error e) :
    (BaseSensor.read_with_metadata s now (Except.ok r)).1.error_count = 0 ∧
    (runReads s now (Except.ok r :: errs)).error_count = errs.length := by
  refine ⟨rfl, ?_⟩
  have hstep : runReads s now (Except.ok r :: errs) =
      runReads (BaseSensor.read_with_metadata s now (Except.ok r)).1 now errs := rfl
  rw [hstep, runReads_all_errors now errs _ herrs]
  simp [BaseSensor.read_with_metadata]

/-- Witness for C9: a sensor that already accumulated 5 errors, then one
successful read followed by a single failure, reports error_count 1. -/
theorem error_count_counts_consecutive_failures_witness :
    (BaseSensor.read_with_metadata
        (BaseSensor.mk "a" "BMP280" true 5 none none) 0 (Except.ok [])).1.error_count
      = 0 ∧
    (runReads (BaseSensor.mk "a" "BMP280" true 5 none none) 0
        [Except.ok [], Except.error "boom"]).error_count =
      [(Except.error "boom" : Except String (List (String × ℚ)))].length :=
  error_count_counts_consecutive_failures
    (BaseSensor.mk "a" "BMP280" true 5 none none) 0 [] [Except.error "boom"]
    (by intro x hx; exact ⟨"boom", by simpa using hx⟩)
